import Mathlib

/-!
Verification of the result-aggregation and selection engine of the music
tagger repository.  The Python sources are shallowly embedded: Python floats
are modelled by exact rationals (ℚ), the file-backed JSON cache by an
association list from cache-key strings to entries, and the asyncio fan-out
by a deterministic abstraction in which every adapter task carries a delay
and an outcome; `asyncio.gather` completes iff every task's delay is within
the shared `wait_for` timeout.  Fallible cache reads return `Option`.
-/

/- ------------------------------------------------------------------ -/
/- Data model: src/music_metadata.py, class MusicMetadata.            -/
/- ------------------------------------------------------------------ -/

/-- Embedding of `MusicMetadata` (src/music_metadata.py).  The constructor
defaults `album` to the empty string and `confidence` to 0.0; `cover_url`,
`release_id` and `source` default to `None`.  `weighted_score` is not set by
the constructor; `_select_best_result` reads it with
`getattr(x, 'weighted_score', 0)`, so it is modelled as a field that is 0
until the selection engine assigns it.  `cover_urls` and `source_data` are
dictionaries; only their keys and string values matter here. -/
structure MusicMetadata where
  title : String
  artist : String
  album : String
  confidence : ℚ
  coverUrl : Option String
  coverUrls : List (String × String)
  releaseId : Option String
  source : Option String
  sourceData : List String
  weightedScore : ℚ
deriving DecidableEq

/-- Python truthiness of an `Optional[str]`: `None` and the empty string are
falsy, every other string is truthy. -/
def optTruthy : Option String → Bool
  | none => false
  | some s => s != ""

/- ------------------------------------------------------------------ -/
/- Result cache: src/cache.py, class Cache.                           -/
/- ------------------------------------------------------------------ -/

/-- The candidate subset that `search_track_info` persists via `Cache.set`
(src/music_tagger.py lines 223-231) and reads back on a cache hit. -/
structure CachePayload where
  title : String
  artist : String
  album : String
  confidence : ℚ
  source : Option String
  releaseId : Option String
  coverUrl : Option String
deriving DecidableEq

/-- One on-disk cache file.  `corrupt` stands for a file whose JSON cannot be
parsed or that lacks the `timestamp`/`content` keys (any exception inside
`Cache.get`); `entry` is a well-formed `{timestamp, content}` record. -/
inductive CacheFile where
  | corrupt
  | entry (timestamp : ℚ) (content : CachePayload)
deriving DecidableEq

/-- The cache directory: an association list from the cache key to the file
stored under `md5(key).json`.  Since the file name is a function of the key,
keys index files faithfully: equal keys always address the same file. -/
abbrev CacheState := List (String × CacheFile)

/-- Look up the file stored for a key, if any. -/
def lookupCache (c : CacheState) (k : String) : Option CacheFile :=
  (c.find? (fun p => p.1 == k)).map (fun p => p.2)

/-- Delete the file stored for a key (`cache_file.unlink()`). -/
def eraseCache (c : CacheState) (k : String) : CacheState :=
  c.filter (fun p => p.1 != k)

/-- Embedding of `Cache.get` (src/cache.py lines 31-58).  Returns the stored
content, or `none` when the file is missing, when parsing raises (the file is
deleted), or when `time.time() - data["timestamp"] > expire_days * 24 * 3600`
(the file is deleted).  The updated cache directory is returned alongside. -/
def cacheGet (c : CacheState) (expireDays now : ℚ) (k : String) :
    Option CachePayload × CacheState :=
  match lookupCache c k with
  | none => (none, c)
  | some CacheFile.corrupt => (none, eraseCache c k)
  | some (CacheFile.entry ts content) =>
      if now - ts > expireDays * 24 * 3600 then (none, eraseCache c k)
      else (some content, c)

/-- Embedding of `Cache.set` (src/cache.py lines 60-78): unconditionally
overwrite the file for the key with a fresh timestamp. -/
def cacheSet (c : CacheState) (now : ℚ) (k : String) (v : CachePayload) :
    CacheState :=
  (k, CacheFile.entry now v) :: eraseCache c k

/- ------------------------------------------------------------------ -/
/- Cache key: MusicTagger._create_cache_key (src/music_tagger.py).    -/
/- ------------------------------------------------------------------ -/

/-- Embedding of `_create_cache_key` (src/music_tagger.py lines 152-154):
the f-string `search_{title}_{artist if artist else 'unknown'}`.  A falsy
artist (absent or empty) contributes the literal `unknown`. -/
def createCacheKey (title : String) (artist : Option String) : String :=
  "search_" ++ title ++ "_" ++
    (match artist with
     | some a => if a = "" then "unknown" else a
     | none => "unknown")

/- ------------------------------------------------------------------ -/
/- Confidence calculator.                                              -/
/- ------------------------------------------------------------------ -/

/-- ASCII lowercasing of one character, mirroring `str.lower()` on the
alphabets used here. -/
def lowerChar (c : Char) : Char :=
  if 65 ≤ c.toNat ∧ c.toNat ≤ 90 then Char.ofNat (c.toNat + 32) else c

/-- Fuelled Levenshtein edit distance.  The fuel starts at the sum of the
lengths and every recursive call decreases both the fuel and that sum, so
the fuel-exhausted branch is reached only with two empty lists, where 0 is
the correct distance; the definition stays structurally recursive. -/
def edFuel : Nat → List Char → List Char → Nat
  | 0, xs, ys => xs.length + ys.length
  | _ + 1, [], ys => ys.length
  | _ + 1, x :: xs, [] => (x :: xs).length
  | f + 1, x :: xs, y :: ys =>
      if x = y then edFuel f xs ys
      else 1 + min (edFuel f xs ys)
                   (min (edFuel f (x :: xs) ys) (edFuel f xs (y :: ys)))

/-- Levenshtein edit distance between two character lists. -/
def editDistance (xs ys : List Char) : Nat :=
  edFuel (xs.length + ys.length) xs ys

/-- Modelled from the spec: `fuzz.ratio` comes from the external fuzzywuzzy
library, which is not part of this repository; the spec describes it as a
case-insensitive edit-distance-based ratio in [0,100], symmetric and with
`similarity(a,a) = 100`.  Modelled as 100·(maxlen − editDistance)/maxlen on
the lowercased strings, with 100 for two empty strings. -/
def similarity (a b : String) : ℚ :=
  let xs := a.data.map lowerChar
  let ys := b.data.map lowerChar
  let m := max xs.length ys.length
  if m = 0 then 100 else 100 * ((m : ℚ) - (editDistance xs ys : ℚ)) / (m : ℚ)

/-- The artist component of a candidate's confidence:
`fuzz.ratio(artist.lower(), result.lower()) if artist else 100`, so a falsy
(absent or empty) artist query contributes the fixed neutral value 100. -/
def artistSim (artist : Option String) (resultArtist : String) : ℚ :=
  match artist with
  | some a => if a = "" then 100 else similarity a resultArtist
  | none => 100

theorem edFuel_self (f : Nat) (xs : List Char) (h : xs.length ≤ f) :
    edFuel f xs xs = 0 := by
  induction f generalizing xs with
  | zero =>
    cases xs with
    | nil => rfl
    | cons x t => simp at h
  | succ f ih =>
    cases xs with
    | nil => rfl
    | cons x t =>
      simp only [edFuel, if_pos rfl]
      exact ih t (by simpa using Nat.le_of_succ_le_succ (by simpa using h))

theorem editDistance_self (xs : List Char) : editDistance xs xs = 0 :=
  edFuel_self _ xs (by omega)

/-- The modelled similarity is reflexive with value 100, as the spec
requires of the confidence calculator. -/
theorem similarity_self (a : String) : similarity a a = 100 := by
  unfold similarity
  simp only [editDistance_self, max_self, Nat.cast_zero]
  by_cases h : (a.data.map lowerChar).length = 0
  · simp [h]
  · have h1 : ((a.data.map lowerChar).length : ℚ) ≠ 0 := by
      exact_mod_cast h
    field_simp [h]

/- ------------------------------------------------------------------ -/
/- Scoring and selection: MusicTagger._select_best_result.            -/
/- ------------------------------------------------------------------ -/

/-- Weight lookup `source_weights.get(result.source, 1.0)`
(src/music_tagger.py lines 265-266).  `result.source` may be `None`, in
which case the string-keyed dict yields the default 1.0. -/
def weightOf (weights : List (String × ℚ)) (src : Option String) : ℚ :=
  match src with
  | none => 1
  | some s => (((weights.find? (fun p => p.1 == s)).map (fun p => p.2)).getD 1)

/-- The scoring pass of `_select_best_result` (src/music_tagger.py lines
260-276): score = confidence, times the source weight, times 1.1 when the
album string is truthy, times a further 1.1 when `cover_url or release_id`
is truthy; the score is stored in `weighted_score`. -/
def scoreMeta (weights : List (String × ℚ)) (m : MusicMetadata) : MusicMetadata :=
  let s1 := m.confidence * weightOf weights m.source
  let s2 := if m.album = "" then s1 else s1 * (1.1 : ℚ)
  let s3 := if optTruthy m.coverUrl || optTruthy m.releaseId then s2 * (1.1 : ℚ) else s2
  { m with weightedScore := s3 }

/-- One step of CPython `max(..., key=...)`: the running maximum is replaced
only when the next key is strictly greater, so the first of equal maxima is
kept. -/
def pickBetter (best c : MusicMetadata) : MusicMetadata :=
  if best.weightedScore < c.weightedScore then c else best

/-- Embedding of `_select_best_result` (src/music_tagger.py lines 247-279):
score every candidate, then `max(results, key=lambda x: getattr(x,
'weighted_score', 0))`; an empty list yields `None` (the guard at line
256). -/
def selectBest (weights : List (String × ℚ)) (results : List MusicMetadata) :
    Option MusicMetadata :=
  match results.map (scoreMeta weights) with
  | [] => none
  | r :: rs => some (rs.foldl pickBetter r)

/- ------------------------------------------------------------------ -/
/- Fan-out and pipeline: MusicTagger.search_track_info.               -/
/- ------------------------------------------------------------------ -/

/-- Outcome of one `_safe_search` task: the adapter either returns a
candidate or nothing (`ok`), or raises (`err`) — `_safe_search`
(src/music_tagger.py lines 239-245) catches the exception and returns
`None`. -/
inductive TaskOutcome where
  | ok (m : Option MusicMetadata)
  | err
deriving DecidableEq

/-- One adapter lookup task in the deterministic concurrency model: it
finishes `delay` seconds after launch with the given outcome. -/
structure AdapterTask where
  delay : ℚ
  outcome : TaskOutcome
deriving DecidableEq

/-- What `_safe_search` hands to the result collector for one task. -/
def taskResult (t : AdapterTask) : Option MusicMetadata :=
  match t.outcome with
  | TaskOutcome.ok m => m
  | TaskOutcome.err => none

/-- The configuration values `search_track_info` consumes: the shared
timeout `config.get("search_timeout", 30)`, the threshold
`config.min_confidence` (default 50), the weight table
`config.get("source_weights", {})`, and the cache expiry (Cache() default
30 days). -/
structure TaggerConfig where
  searchTimeout : ℚ
  minConfidence : ℚ
  sourceWeights : List (String × ℚ)
  expireDays : ℚ
deriving DecidableEq

/-- Observable side effects of one `search_track_info` call, in order. -/
inductive Eff where
  | cacheGetE
  | cacheSetE
  | adapterSearchE (i : Nat)
deriving DecidableEq

/-- The fan-out of src/music_tagger.py lines 185-212:
`asyncio.wait_for(asyncio.gather(*tasks, return_exceptions=True), timeout)`.
The gather future completes once every task has finished, i.e. exactly when
every task's delay is within the shared timeout; in that case the collected
`results` list keeps each non-`None` task result in task order.  If any task
is still outstanding at the deadline, `wait_for` raises
`asyncio.TimeoutError` before `completed_tasks` is assigned: the except
branch (lines 207-212) only cancels the unfinished tasks, so `results`
remains the empty list — the results of tasks that did finish in time are
discarded with it. -/
def runFanout (tasks : List AdapterTask) (timeout : ℚ) : List MusicMetadata :=
  if ∀ t ∈ tasks, t.delay ≤ timeout then tasks.filterMap taskResult else []

/-- The payload `search_track_info` persists for a winning candidate
(src/music_tagger.py lines 223-231). -/
def payloadOfMetadata (m : MusicMetadata) : CachePayload :=
  { title := m.title, artist := m.artist, album := m.album,
    confidence := m.confidence, source := m.source,
    releaseId := m.releaseId, coverUrl := m.coverUrl }

/-- Reconstruction of a candidate from a cached payload
(src/music_tagger.py lines 170-179): a fresh `MusicMetadata` whose stored
seven fields are copied back; `cover_urls`, `source_data` and
`weighted_score` take their constructor defaults. -/
def metadataOfPayload (p : CachePayload) : MusicMetadata :=
  { title := p.title, artist := p.artist, album := p.album,
    confidence := p.confidence, coverUrl := p.coverUrl, coverUrls := [],
    releaseId := p.releaseId, source := p.source, sourceData := [],
    weightedScore := 0 }

/-- Embedding of `search_track_info` (src/music_tagger.py lines 156-237).
Returns the resolved candidate (or `none`), the cache directory after the
call, and the ordered list of observable effects.  An empty title returns
immediately; a cache hit reconstructs the payload without launching any
adapter task; otherwise all adapter tasks run under the shared timeout, the
best candidate is selected, gated on its raw confidence, and persisted on
success.  Cached payloads written by this function are always well-formed,
so the reconstruction `try` at lines 169-181 never fails in the model. -/
def searchTrackInfo (cfg : TaggerConfig) (tasks : List AdapterTask)
    (cache : CacheState) (now : ℚ) (title : String) (artist : Option String) :
    Option MusicMetadata × CacheState × List Eff :=
  if title = "" then (none, cache, [])
  else
    let key := createCacheKey title artist
    let got := cacheGet cache cfg.expireDays now key
    match got.1 with
    | some payload => (some (metadataOfPayload payload), got.2, [Eff.cacheGetE])
    | none =>
      let effs := Eff.cacheGetE :: (List.range tasks.length).map Eff.adapterSearchE
      let results := runFanout tasks cfg.searchTimeout
      match selectBest cfg.sourceWeights results with
      | none => (none, got.2, effs)
      | some best =>
        if best.confidence < cfg.minConfidence then (none, got.2, effs)
        else (some best, cacheSet got.2 now key (payloadOfMetadata best),
              effs ++ [Eff.cacheSetE])

/- ------------------------------------------------------------------ -/
/- Source adapters (src/music_sources/ package and legacy module).    -/
/- ------------------------------------------------------------------ -/

/-- URL normalization of `MusicSource._normalize_url`
(src/music_sources/base.py lines 59-63). -/
def normalizeUrl (url : String) : String :=
  if url.startsWith "http://" then "https://" ++ url.drop 7 else url

/-- Overwrite-insert into a string-keyed dictionary (`d[k] = v`). -/
def dictInsert (d : List (String × String)) (k v : String) :
    List (String × String) :=
  (k, v) :: d.filter (fun p => p.1 != k)

/-- Dictionary lookup (`k in d` / `d[k]`). -/
def dictGet (d : List (String × String)) (k : String) : Option String :=
  (d.find? (fun p => p.1 == k)).map (fun p => p.2)

/-- One parsed Spotify track item (`results['tracks']['items'][i]`). -/
structure SpTrack where
  name : String
  artistName : String
  albumName : String
  images : List (Nat × String)
deriving DecidableEq

/-- Embedding of `SpotifySource.search` (src/music_sources/spotify.py lines
41-87), abstracted over the parsed response items.  The first track wins;
cover URLs are bucketed by width (≥640 high, ≥300 medium, else low) and the
main cover prefers high then medium; the confidence is the arithmetic mean
of the title similarity and the artist similarity (100 for a falsy artist
query). -/
def spotifySearch (title : String) (artist : Option String)
    (tracks : List SpTrack) : Option MusicMetadata :=
  match tracks with
  | [] => none
  | track :: _ =>
      let urls := track.images.foldl
        (fun d wi =>
          if 640 ≤ wi.1 then dictInsert d "spotify_high" wi.2
          else if 300 ≤ wi.1 then dictInsert d "spotify_medium" wi.2
          else dictInsert d "spotify_low" wi.2) []
      let cu : Option String :=
        match dictGet urls "spotify_high" with
        | some u => some u
        | none => dictGet urls "spotify_medium"
      let tSim := similarity title track.name
      let aSim := artistSim artist track.artistName
      some { title := track.name, artist := track.artistName,
             album := track.albumName, confidence := (tSim + aSim) / 2,
             coverUrl := cu, coverUrls := urls, releaseId := none,
             source := some "spotify", sourceData := ["spotify"],
             weightedScore := 0 }

/-- One entry of a MusicBrainz `release-list`; `.get('title', '')` and
`.get('id', '')` default missing keys to the empty string. -/
structure MBRelease where
  title : String
  id : String
deriving DecidableEq

/-- One parsed MusicBrainz recording.  `releaseList = none` models a
response without the `release-list` key (the code substitutes `[{}]`);
`images` is the cover-art-archive image list for the recording's release. -/
structure MBRecording where
  title : String
  artistName : String
  releaseList : Option (List MBRelease)
  images : List String
deriving DecidableEq

/-- The `best_match.get('release-list', [{}])[0]` access: a missing key
yields the defaulted empty release; a present but empty list raises
IndexError, which escapes to the outer handler and turns the whole search
into `None`. -/
def mbFirstRelease : Option (List MBRelease) → Option MBRelease
  | none => some { title := "", id := "" }
  | some [] => none
  | some (r :: _) => some r

/-- Embedding of the package `MusicBrainzSource.search`
(src/music_sources/musicbrainz.py lines 48-89), abstracted over the parsed
recording list.  The first recording wins; `release_id` is set (possibly to
the empty string); a cover URL is attached when the release id is truthy and
the image list is non-empty.  No similarity is ever computed: the returned
candidate keeps the constructor default `confidence = 0.0`. -/
def mbSearchPkg (_title : String) (_artist : Option String)
    (recordings : List MBRecording) : Option MusicMetadata :=
  match recordings with
  | [] => none
  | r :: _ =>
      match mbFirstRelease r.releaseList with
      | none => none
      | some rel =>
          let base : MusicMetadata :=
            { title := r.title, artist := r.artistName, album := rel.title,
              confidence := 0, coverUrl := none, coverUrls := [],
              releaseId := some rel.id, source := some "musicbrainz",
              sourceData := ["musicbrainz"], weightedScore := 0 }
          if rel.id = "" then some base
          else
            match r.images with
            | [] => some base
            | img :: _ =>
                let u := normalizeUrl img
                some { base with coverUrls := [("musicbrainz", u)],
                                 coverUrl := some u }

/-- Embedding of the legacy module-level `MusicBrainzSource.search`
(src/music_sources.py lines 124-156; shadowed by the package of the same
name).  Unlike the package version it computes the confidence as the mean of
the title and artist similarities and fetches no cover. -/
def mbSearchLegacy (title : String) (artist : Option String)
    (recordings : List MBRecording) : Option MusicMetadata :=
  match recordings with
  | [] => none
  | r :: _ =>
      match mbFirstRelease r.releaseList with
      | none => none
      | some rel =>
          let tSim := similarity title r.title
          let aSim := artistSim artist r.artistName
          some { title := r.title, artist := r.artistName, album := rel.title,
                 confidence := (tSim + aSim) / 2, coverUrl := none,
                 coverUrls := [], releaseId := some rel.id,
                 source := some "musicbrainz", sourceData := [],
                 weightedScore := 0 }

/-- One parsed Netease song (`data["result"]["songs"][i]`); `picUrl` is the
album cover URL when present. -/
structure NeSong where
  name : String
  artistName : String
  albumName : String
  picUrl : Option String
deriving DecidableEq

/-- Embedding of the package `NeteaseMusicSource.search`
(src/music_sources/netease.py lines 48-85), abstracted over the parsed song
list.  The returned candidate keeps the constructor default
`confidence = 0.0`. -/
def neteaseSearch (_title : String) (_artist : Option String)
    (songs : List NeSong) : Option MusicMetadata :=
  match songs with
  | [] => none
  | s :: _ =>
      let base : MusicMetadata :=
        { title := s.name, artist := s.artistName, album := s.albumName,
          confidence := 0, coverUrl := none, coverUrls := [],
          releaseId := none, source := some "netease",
          sourceData := ["netease"], weightedScore := 0 }
      match s.picUrl with
      | none => some base
      | some p =>
          let u := normalizeUrl p
          some { base with coverUrls := [("netease", u)], coverUrl := some u }

/-- One parsed QQ Music song (`data["data"]["song"]["list"][i]`). -/
structure QQSong where
  title : String
  singerName : String
  albumTitle : String
  albumMid : String
deriving DecidableEq

/-- Embedding of the package `QQMusicSource.search`
(src/music_sources/qq.py lines 31-82), abstracted over the parsed song
list.  The cover URL is built from the album mid.  The returned candidate
keeps the constructor default `confidence = 0.0`. -/
def qqSearch (_title : String) (_artist : Option String)
    (songs : List QQSong) : Option MusicMetadata :=
  match songs with
  | [] => none
  | s :: _ =>
      let u := normalizeUrl
        ("https://y.gtimg.cn/music/photo_new/T002R800x800M000" ++
          s.albumMid ++ ".jpg")
      some { title := s.title, artist := s.singerName, album := s.albumTitle,
             confidence := 0, coverUrl := some u,
             coverUrls := [("qqmusic", u)], releaseId := none,
             source := some "qqmusic", sourceData := ["qqmusic"],
             weightedScore := 0 }

/- ------------------------------------------------------------------ -/
/- Helper lemmas.                                                     -/
/- ------------------------------------------------------------------ -/

theorem lookupCache_erase (c : CacheState) (k : String) :
    lookupCache (eraseCache c k) k = none := by
  unfold lookupCache eraseCache
  have h : List.find? (fun p => p.1 == k) (c.filter (fun p => p.1 != k)) =
      none := by
    rw [List.find?_eq_none]
    intro x hx
    have h2 := (List.mem_filter.mp hx).2
    simp only [bne_iff_ne, ne_eq] at h2
    simp [h2]
  rw [h]
  rfl

theorem cacheGet_erase_fst (c : CacheState) (expireDays now : ℚ) (k : String) :
    (cacheGet (eraseCache c k) expireDays now k).1 = none := by
  simp [cacheGet, lookupCache_erase]

theorem lookupCache_set (c : CacheState) (now : ℚ) (k : String)
    (v : CachePayload) :
    lookupCache (cacheSet c now k v) k = some (CacheFile.entry now v) := by
  simp [cacheSet, lookupCache, List.find?]

/- ------------------------------------------------------------------ -/
/- C9: empty title short-circuits with no side effects.               -/
/- ------------------------------------------------------------------ -/

/-- C9: for every call of `search_track_info` with a falsy title the result
is absent, the cache is untouched, and the effect trace is empty — neither
`Cache.get` nor `Cache.set` nor any adapter search runs, and (the embedding
being total along this branch) no exception is raised. -/
theorem claim9_empty_title_short_circuits (cfg : TaggerConfig)
    (tasks : List AdapterTask) (cache : CacheState) (now : ℚ)
    (title : String) (artist : Option String) (ht : title = "") :
    searchTrackInfo cfg tasks cache now title artist = (none, cache, []) := by
  simp [searchTrackInfo, ht]

/-- Witness for C9 at a concrete input. -/
theorem claim9_witness :
    searchTrackInfo { searchTimeout := 30, minConfidence := 50,
                      sourceWeights := [], expireDays := 30 }
      [] [] 0 "" none = (none, [], []) :=
  claim9_empty_title_short_circuits _ _ _ _ _ _ rfl

/- ------------------------------------------------------------------ -/
/- C8: self-healing cache read.                                       -/
/- ------------------------------------------------------------------ -/

/-- C8: `Cache.get` returns absent when no entry file exists, when the
stored entry is corrupt, or when `now - timestamp` exceeds
`expire_days * 24 * 3600`; in the corrupt and expired cases the file is
deleted by the read, so an immediately repeated get finds nothing.  The
embedding of `Cache.get` is a total function, matching the code's
catch-all exception handler: the caller never sees an exception. -/
theorem claim8_cache_get_self_healing (c : CacheState) (expireDays now : ℚ)
    (k : String) :
    (lookupCache c k = none → cacheGet c expireDays now k = (none, c)) ∧
    (lookupCache c k = some CacheFile.corrupt →
      cacheGet c expireDays now k = (none, eraseCache c k) ∧
      (cacheGet (eraseCache c k) expireDays now k).1 = none) ∧
    (∀ ts p, lookupCache c k = some (CacheFile.entry ts p) →
      now - ts > expireDays * 24 * 3600 →
      cacheGet c expireDays now k = (none, eraseCache c k) ∧
      (cacheGet (eraseCache c k) expireDays now k).1 = none) := by
  refine ⟨fun h => ?_, fun h => ⟨?_, cacheGet_erase_fst c expireDays now k⟩,
          fun ts p h hexp => ⟨?_, cacheGet_erase_fst c expireDays now k⟩⟩
  · simp [cacheGet, h]
  · simp [cacheGet, h]
  · simp [cacheGet, h, if_pos hexp]

/-- Witness for C8: a missing entry, a corrupt entry, and an entry one
second past the 30-day expiry, each at a concrete cache. -/
theorem claim8_witness :
    cacheGet [] 30 0 "k" = (none, []) ∧
    (cacheGet [("k", CacheFile.corrupt)] 30 0 "k" =
        (none, eraseCache [("k", CacheFile.corrupt)] "k") ∧
      (cacheGet (eraseCache [("k", CacheFile.corrupt)] "k") 30 0 "k").1 =
        none) ∧
    (cacheGet [("k", CacheFile.entry 0
        { title := "t", artist := "a", album := "b", confidence := 60,
          source := none, releaseId := none, coverUrl := none })]
        30 2592001 "k" =
        (none, eraseCache [("k", CacheFile.entry 0
          { title := "t", artist := "a", album := "b", confidence := 60,
            source := none, releaseId := none, coverUrl := none })] "k") ∧
      (cacheGet (eraseCache [("k", CacheFile.entry 0
          { title := "t", artist := "a", album := "b", confidence := 60,
            source := none, releaseId := none, coverUrl := none })] "k")
          30 2592001 "k").1 = none) := by
  refine ⟨(claim8_cache_get_self_healing [] 30 0 "k").1 rfl,
          (claim8_cache_get_self_healing _ 30 0 "k").2.1 rfl,
          (claim8_cache_get_self_healing _ 30 2592001 "k").2.2 0 _ rfl
            (by norm_num)⟩

/- ------------------------------------------------------------------ -/
/- C10: cache keys are not injective over queries.                    -/
/- ------------------------------------------------------------------ -/

/-- Equal-weight configuration used by the concrete scenarios below. -/
def cfgPlain : TaggerConfig :=
  { searchTimeout := 30, minConfidence := 50, sourceWeights := [],
    expireDays := 30 }

/-- A bonus-free candidate with confidence 90 used by concrete scenarios. -/
def candPlain : MusicMetadata :=
  { title := "T", artist := "A", album := "", confidence := 90,
    coverUrl := none, coverUrls := [], releaseId := none, source := none,
    sourceData := [], weightedScore := 0 }

/-- A fast adapter task returning `candPlain`. -/
def taskPlain : AdapterTask := { delay := 1, outcome := TaskOutcome.ok (some candPlain) }

/-- Effect trace of a cache-miss call that launched the adapter tasks. -/
def missEffs (n : Nat) : List Eff :=
  Eff.cacheGetE :: (List.range n).map Eff.adapterSearchE

theorem searchTrackInfo_hit (cfg : TaggerConfig) (tasks : List AdapterTask)
    (cache : CacheState) (now : ℚ) (title : String) (artist : Option String)
    (payload : CachePayload) (ht : ¬ title = "")
    (hhit : (cacheGet cache cfg.expireDays now (createCacheKey title artist)).1 =
      some payload) :
    searchTrackInfo cfg tasks cache now title artist =
      (some (metadataOfPayload payload),
       (cacheGet cache cfg.expireDays now (createCacheKey title artist)).2,
       [Eff.cacheGetE]) := by
  simp only [searchTrackInfo, if_neg ht, hhit]

theorem searchTrackInfo_miss_empty (cfg : TaggerConfig)
    (tasks : List AdapterTask) (cache : CacheState) (now : ℚ)
    (title : String) (artist : Option String) (ht : ¬ title = "")
    (hmiss : (cacheGet cache cfg.expireDays now (createCacheKey title artist)).1 =
      none)
    (hsel : selectBest cfg.sourceWeights (runFanout tasks cfg.searchTimeout) =
      none) :
    searchTrackInfo cfg tasks cache now title artist =
      (none, (cacheGet cache cfg.expireDays now (createCacheKey title artist)).2,
       missEffs tasks.length) := by
  simp only [searchTrackInfo, if_neg ht, hmiss, hsel, missEffs]

theorem searchTrackInfo_miss_low (cfg : TaggerConfig)
    (tasks : List AdapterTask) (cache : CacheState) (now : ℚ)
    (title : String) (artist : Option String) (best : MusicMetadata)
    (ht : ¬ title = "")
    (hmiss : (cacheGet cache cfg.expireDays now (createCacheKey title artist)).1 =
      none)
    (hsel : selectBest cfg.sourceWeights (runFanout tasks cfg.searchTimeout) =
      some best)
    (hlow : best.confidence < cfg.minConfidence) :
    searchTrackInfo cfg tasks cache now title artist =
      (none, (cacheGet cache cfg.expireDays now (createCacheKey title artist)).2,
       missEffs tasks.length) := by
  simp only [searchTrackInfo, if_neg ht, hmiss, hsel, if_pos hlow, missEffs]

theorem searchTrackInfo_miss_win (cfg : TaggerConfig)
    (tasks : List AdapterTask) (cache : CacheState) (now : ℚ)
    (title : String) (artist : Option String) (best : MusicMetadata)
    (ht : ¬ title = "")
    (hmiss : (cacheGet cache cfg.expireDays now (createCacheKey title artist)).1 =
      none)
    (hsel : selectBest cfg.sourceWeights (runFanout tasks cfg.searchTimeout) =
      some best)
    (hge : ¬ best.confidence < cfg.minConfidence) :
    searchTrackInfo cfg tasks cache now title artist =
      (some best,
       cacheSet (cacheGet cache cfg.expireDays now (createCacheKey title artist)).2
         now (createCacheKey title artist) (payloadOfMetadata best),
       missEffs tasks.length ++ [Eff.cacheSetE]) := by
  simp only [searchTrackInfo, if_neg ht, hmiss, hsel, if_neg hge, missEffs]

theorem scoreMeta_confidence (weights : List (String × ℚ)) (m : MusicMetadata) :
    (scoreMeta weights m).confidence = m.confidence := rfl

/-- The winner of the concrete scenario: `candPlain` with its computed
weighted score. -/
def wonPlain : MusicMetadata := scoreMeta cfgPlain.sourceWeights candPlain

/-- The cache directory after the first concrete call persisted the
winner. -/
def cachePlain : CacheState :=
  [("search_a_b_unknown", CacheFile.entry 0 (payloadOfMetadata wonPlain))]

theorem firstCallPlain :
    searchTrackInfo cfgPlain [taskPlain] [] 0 "a_b" none =
      (some wonPlain, cachePlain,
       missEffs 1 ++ [Eff.cacheSetE]) := by
  have hsel : selectBest cfgPlain.sourceWeights
      (runFanout [taskPlain] cfgPlain.searchTimeout) = some wonPlain := by
    have hrf : runFanout [taskPlain] cfgPlain.searchTimeout = [candPlain] := by
      unfold runFanout
      rw [if_pos]
      · rfl
      · intro t htm
        simp only [List.mem_singleton] at htm
        subst htm
        norm_num [taskPlain, cfgPlain]
    rw [hrf]
    rfl
  have h := searchTrackInfo_miss_win cfgPlain [taskPlain] [] 0 "a_b" none
    wonPlain (by decide) rfl hsel
    (by rw [wonPlain, scoreMeta_confidence]; norm_num [candPlain, cfgPlain])
  simpa [cacheSet, eraseCache, cachePlain] using h

/-- C10: the queries `("a_b", absent)` and `("a", "b_unknown")` are distinct
but produce the same cache key string, hence the same MD5-derived cache
file; consequently a `search_track_info` call for the second query returns
the first query's cached winner without any adapter search. -/
theorem claim10_cache_key_collision :
    createCacheKey "a_b" none = createCacheKey "a" (some "b_unknown") ∧
    ("a_b", (none : Option String)) ≠ ("a", some "b_unknown") ∧
    (searchTrackInfo cfgPlain [taskPlain] [] 0 "a_b" none).2.1 = cachePlain ∧
    searchTrackInfo cfgPlain [] cachePlain 5 "a" (some "b_unknown") =
      (some (metadataOfPayload (payloadOfMetadata wonPlain)), cachePlain,
       [Eff.cacheGetE]) := by
  refine ⟨rfl, by decide, by rw [firstCallPlain], ?_⟩
  have hhit : (cacheGet cachePlain cfgPlain.expireDays 5
      (createCacheKey "a" (some "b_unknown"))).1 =
      some (payloadOfMetadata wonPlain) := by
    have hlk : lookupCache cachePlain (createCacheKey "a" (some "b_unknown")) =
        some (CacheFile.entry 0 (payloadOfMetadata wonPlain)) := rfl
    simp only [cacheGet, hlk]
    rw [if_neg]
    norm_num [cfgPlain]
  have h := searchTrackInfo_hit cfgPlain [] cachePlain 5 "a" (some "b_unknown")
    (payloadOfMetadata wonPlain) (by decide) hhit
  rw [h]
  have h2 : (cacheGet cachePlain cfgPlain.expireDays 5
      (createCacheKey "a" (some "b_unknown"))).2 = cachePlain := by
    have hlk : lookupCache cachePlain (createCacheKey "a" (some "b_unknown")) =
        some (CacheFile.entry 0 (payloadOfMetadata wonPlain)) := rfl
    simp only [cacheGet, hlk]
    rw [if_neg]
    norm_num [cfgPlain]
  rw [h2]

/- ------------------------------------------------------------------ -/
/- C2: weighted score formula and maximum selection.                  -/
/- ------------------------------------------------------------------ -/

theorem le_pickBetter_left (b c : MusicMetadata) :
    b.weightedScore ≤ (pickBetter b c).weightedScore := by
  unfold pickBetter
  by_cases h : b.weightedScore < c.weightedScore
  · rw [if_pos h]; exact le_of_lt h
  · rw [if_neg h]

theorem le_pickBetter_right (b c : MusicMetadata) :
    c.weightedScore ≤ (pickBetter b c).weightedScore := by
  unfold pickBetter
  by_cases h : b.weightedScore < c.weightedScore
  · rw [if_pos h]
  · rw [if_neg h]; exact le_of_not_lt h

theorem foldl_pickBetter_mem (r : MusicMetadata) (rs : List MusicMetadata) :
    rs.foldl pickBetter r ∈ r :: rs := by
  induction rs generalizing r with
  | nil => simp
  | cons a as ih =>
    simp only [List.foldl_cons]
    rcases List.mem_cons.mp (ih (pickBetter r a)) with h1 | h1
    · rw [h1]
      unfold pickBetter
      by_cases h : r.weightedScore < a.weightedScore
      · rw [if_pos h]
        exact List.mem_cons_of_mem _ (List.mem_cons_self a as)
      · rw [if_neg h]
        exact List.mem_cons_self r _
    · exact List.mem_cons_of_mem _ (List.mem_cons_of_mem _ h1)

theorem foldl_pickBetter_ge (r : MusicMetadata) (rs : List MusicMetadata) :
    ∀ c ∈ r :: rs, c.weightedScore ≤ (rs.foldl pickBetter r).weightedScore := by
  induction rs generalizing r with
  | nil =>
    intro c hc
    simp only [List.mem_singleton] at hc
    rw [hc, List.foldl_nil]
  | cons a as ih =>
    intro c hc
    simp only [List.foldl_cons]
    have hhead : (pickBetter r a).weightedScore ≤
        (as.foldl pickBetter (pickBetter r a)).weightedScore :=
      ih (pickBetter r a) _ (List.mem_cons_self _ _)
    rcases List.mem_cons.mp hc with h1 | h1
    · rw [h1]
      exact le_trans (le_pickBetter_left r a) hhead
    · rcases List.mem_cons.mp h1 with h2 | h2
      · rw [h2]
        exact le_trans (le_pickBetter_right r a) hhead
      · exact ih (pickBetter r a) c (List.mem_cons_of_mem _ h2)

/-- C2: for every candidate processed by `_select_best_result`, the computed
weighted score equals confidence × `weights.get(source, 1.0)` × a factor 1.1
when the album is non-empty × a further factor 1.1 when `cover_url` or
`release_id` is truthy — so a candidate with both bonuses scores exactly
confidence × weight × 1.21 — and the returned winner attains the maximum of
this score over the scored input list. -/
theorem claim2_weighted_score_and_max (weights : List (String × ℚ))
    (results : List MusicMetadata) (hne : results ≠ []) :
    (∀ m ∈ results, (scoreMeta weights m).weightedScore =
        m.confidence * weightOf weights m.source *
          (if m.album = "" then 1 else (1.1 : ℚ)) *
          (if optTruthy m.coverUrl || optTruthy m.releaseId then (1.1 : ℚ)
           else 1)) ∧
    (∀ m ∈ results, m.album ≠ "" →
        (optTruthy m.coverUrl || optTruthy m.releaseId) = true →
        (scoreMeta weights m).weightedScore =
          m.confidence * weightOf weights m.source * (121 / 100 : ℚ)) ∧
    (∃ w, selectBest weights results = some w ∧
      w ∈ results.map (scoreMeta weights) ∧
      ∀ m ∈ results.map (scoreMeta weights),
        m.weightedScore ≤ w.weightedScore) := by
  refine ⟨?_, ?_, ?_⟩
  · intro m _
    simp only [scoreMeta]
    by_cases h1 : m.album = "" <;>
      by_cases h2 : (optTruthy m.coverUrl || optTruthy m.releaseId) = true <;>
        simp only [h1, h2, if_pos, if_neg, ite_true, ite_false,
          Bool.false_eq_true, not_false_eq_true] <;>
        ring
  · intro m _ h1 h2
    simp only [scoreMeta, if_neg h1, if_pos h2]
    ring
  · cases results with
    | nil => exact absurd rfl hne
    | cons r rs =>
      refine ⟨(rs.map (scoreMeta weights)).foldl pickBetter
          (scoreMeta weights r), ?_, ?_, ?_⟩
      · simp [selectBest]
      · simpa using
          foldl_pickBetter_mem (scoreMeta weights r) (rs.map (scoreMeta weights))
      · intro m hm
        apply foldl_pickBetter_ge (scoreMeta weights r) (rs.map (scoreMeta weights))
        simpa using hm

/-- A candidate with both a non-empty album and a cover URL, from a source
of weight 2, used to witness the compounded 1.21 bonus. -/
def candBonus : MusicMetadata :=
  { title := "T", artist := "A", album := "Al", confidence := 95,
    coverUrl := some "u", coverUrls := [], releaseId := none,
    source := some "s", sourceData := [], weightedScore := 0 }

/-- Witness for C2: the double-bonus candidate scores exactly
95 × 2 × 1.21 and is returned as the winner. -/
theorem claim2_witness :
    (scoreMeta [("s", 2)] candBonus).weightedScore = 95 * 2 * (121 / 100 : ℚ) ∧
    selectBest [("s", 2)] [candBonus] = some (scoreMeta [("s", 2)] candBonus) := by
  have h := claim2_weighted_score_and_max [("s", 2)] [candBonus] (by simp)
  constructor
  · have h2 := h.2.1 candBonus (List.mem_singleton_self _) (by decide) (by decide)
    rw [h2]
    have hw : weightOf [("s", 2)] candBonus.source = 2 := rfl
    have hc : candBonus.confidence = 95 := rfl
    rw [hw, hc]
  · rcases h.2.2 with ⟨w, hw, hmem, _⟩
    simp only [List.map_cons, List.map_nil, List.mem_singleton] at hmem
    rw [hw, hmem]

/- ------------------------------------------------------------------ -/
/- C3: the threshold gates on raw confidence, not weighted score.     -/
/- ------------------------------------------------------------------ -/

/-- C3: whenever the candidate selected by maximum weighted score has raw
confidence strictly below `min_confidence`, `search_track_info` returns
absent — the gate reads `best_result.confidence`, not the weighted score
used for ranking. -/
theorem claim3_threshold_gates_raw_confidence (cfg : TaggerConfig)
    (tasks : List AdapterTask) (cache : CacheState) (now : ℚ)
    (title : String) (artist : Option String) (best : MusicMetadata)
    (hmiss : (cacheGet cache cfg.expireDays now
      (createCacheKey title artist)).1 = none)
    (hsel : selectBest cfg.sourceWeights (runFanout tasks cfg.searchTimeout) =
      some best)
    (hlow : best.confidence < cfg.minConfidence) :
    (searchTrackInfo cfg tasks cache now title artist).1 = none := by
  by_cases ht : title = ""
  · simp [searchTrackInfo, ht]
  · rw [searchTrackInfo_miss_low cfg tasks cache now title artist best ht
      hmiss hsel hlow]

/-- Configuration giving source `w2` the weight 2.0. -/
def cfgW2 : TaggerConfig :=
  { searchTimeout := 30, minConfidence := 50,
    sourceWeights := [("w2", 2)], expireDays := 30 }

/-- A candidate with raw confidence 40 from the weight-2 source: its
weighted score is 80. -/
def candLow : MusicMetadata :=
  { title := "L", artist := "A", album := "", confidence := 40,
    coverUrl := none, coverUrls := [], releaseId := none,
    source := some "w2", sourceData := [], weightedScore := 0 }

/-- A rival candidate with raw confidence 45 and weight 1: weighted score
45, below the low-confidence candidate's 80. -/
def candRival : MusicMetadata :=
  { title := "R", artist := "B", album := "", confidence := 45,
    coverUrl := none, coverUrls := [], releaseId := none, source := none,
    sourceData := [], weightedScore := 0 }

/-- The two fast adapter tasks of the C3 scenario. -/
def tasksC3 : List AdapterTask :=
  [{ delay := 1, outcome := TaskOutcome.ok (some candLow) },
   { delay := 1, outcome := TaskOutcome.ok (some candRival) }]

theorem scoreCandLow :
    (scoreMeta cfgW2.sourceWeights candLow).weightedScore = 80 := by
  norm_num [scoreMeta, cfgW2, candLow, weightOf, optTruthy, List.find?]

theorem scoreCandRival :
    (scoreMeta cfgW2.sourceWeights candRival).weightedScore = 45 := by
  norm_num [scoreMeta, cfgW2, candRival, weightOf, optTruthy, List.find?]

theorem selC3 : selectBest cfgW2.sourceWeights
    (runFanout tasksC3 cfgW2.searchTimeout) =
    some (scoreMeta cfgW2.sourceWeights candLow) := by
  have hrf : runFanout tasksC3 cfgW2.searchTimeout = [candLow, candRival] := by
    unfold runFanout
    rw [if_pos]
    · rfl
    · intro t htm
      simp only [tasksC3, List.mem_cons, List.mem_singleton,
        List.not_mem_nil, or_false] at htm
      rcases htm with h | h <;> subst h <;> norm_num [cfgW2]
  rw [hrf]
  have hpick : pickBetter (scoreMeta cfgW2.sourceWeights candLow)
      (scoreMeta cfgW2.sourceWeights candRival) =
      scoreMeta cfgW2.sourceWeights candLow := by
    unfold pickBetter
    rw [scoreCandLow, scoreCandRival, if_neg (by norm_num)]
  simp only [selectBest, List.map_cons, List.map_nil, List.foldl_cons,
    List.foldl_nil, hpick]

/-- Witness for C3: confidence 40 with weight 2.0 gives weighted score 80,
beating the rival's 45, yet the call returns absent under the default
threshold 50. -/
theorem claim3_witness :
    (scoreMeta cfgW2.sourceWeights candLow).weightedScore = 80 ∧
    (scoreMeta cfgW2.sourceWeights candRival).weightedScore = 45 ∧
    candLow.confidence = 40 ∧ cfgW2.minConfidence = 50 ∧
    (searchTrackInfo cfgW2 tasksC3 [] 0 "t" none).1 = none := by
  refine ⟨scoreCandLow, scoreCandRival, rfl, rfl,
    claim3_threshold_gates_raw_confidence cfgW2 tasksC3 [] 0 "t" none
      (scoreMeta cfgW2.sourceWeights candLow) rfl selC3 ?_⟩
  rw [scoreMeta_confidence]
  norm_num [candLow, cfgW2]

/- ------------------------------------------------------------------ -/
/- C1: behavior when the shared timeout elapses.                      -/
/- ------------------------------------------------------------------ -/

/-- An adapter task that outlives the 30-second shared timeout, though its
eventual answer would have been a valid candidate. -/
def slowTask : AdapterTask :=
  { delay := 100, outcome := TaskOutcome.ok (some candRival) }

/-- Counterexample to C1 as stated: the fast adapter (delay 1) returns a
candidate with confidence 90 ≥ the threshold 50 well before the 30-second
deadline, while the slow adapter (delay 100) is still outstanding — yet the
call returns absent.  On `asyncio.TimeoutError` the variable
`completed_tasks` was never assigned (src/music_tagger.py lines 194-212), so
`results` stays empty and line 214 returns `None`: candidates from adapters
that finished before the deadline are discarded, contradicting the claim
that the call returns a result derived from them. -/
theorem claim1_counterexample :
    taskPlain.delay ≤ cfgPlain.searchTimeout ∧
    cfgPlain.minConfidence ≤ candPlain.confidence ∧
    cfgPlain.searchTimeout < slowTask.delay ∧
    (searchTrackInfo cfgPlain [taskPlain, slowTask] [] 0 "t" none).1 = none := by
  refine ⟨by norm_num [taskPlain, cfgPlain], by norm_num [candPlain, cfgPlain],
    by norm_num [slowTask, cfgPlain], ?_⟩
  have hslow : ¬ ∀ t ∈ [taskPlain, slowTask],
      t.delay ≤ cfgPlain.searchTimeout := by
    intro h
    have h2 := h slowTask (by simp)
    norm_num [slowTask, cfgPlain] at h2
  have hrf : runFanout [taskPlain, slowTask] cfgPlain.searchTimeout = [] := by
    unfold runFanout
    rw [if_neg hslow]
  have hsel : selectBest cfgPlain.sourceWeights
      (runFanout [taskPlain, slowTask] cfgPlain.searchTimeout) = none := by
    rw [hrf]
    rfl
  rw [searchTrackInfo_miss_empty cfgPlain [taskPlain, slowTask] [] 0 "t" none
    (by decide) rfl hsel]

/-- C1 (amended): if the shared timeout elapses before all adapter tasks
finish, the outstanding tasks are cancelled and the call returns absent —
the collected results list is left empty on the timeout path, so even
candidates from adapters that completed before the deadline are discarded
rather than contributing to a result. -/
theorem claim1_amended_timeout_discards_all (cfg : TaggerConfig)
    (tasks : List AdapterTask) (cache : CacheState) (now : ℚ)
    (title : String) (artist : Option String)
    (hmiss : (cacheGet cache cfg.expireDays now
      (createCacheKey title artist)).1 = none)
    (hslow : ¬ ∀ t ∈ tasks, t.delay ≤ cfg.searchTimeout) :
    runFanout tasks cfg.searchTimeout = [] ∧
    (searchTrackInfo cfg tasks cache now title artist).1 = none := by
  have hrf : runFanout tasks cfg.searchTimeout = [] := by
    unfold runFanout
    rw [if_neg hslow]
  refine ⟨hrf, ?_⟩
  by_cases ht : title = ""
  · simp [searchTrackInfo, ht]
  · have hsel : selectBest cfg.sourceWeights
        (runFanout tasks cfg.searchTimeout) = none := by
      rw [hrf]
      rfl
    rw [searchTrackInfo_miss_empty cfg tasks cache now title artist ht
      hmiss hsel]

/-- Witness for the amended C1 at the concrete timeout scenario. -/
theorem claim1_witness :
    runFanout [taskPlain, slowTask] cfgPlain.searchTimeout = [] ∧
    (searchTrackInfo cfgPlain [taskPlain, slowTask] [] 0 "u" none).1 = none := by
  apply claim1_amended_timeout_discards_all cfgPlain [taskPlain, slowTask]
    [] 0 "u" none rfl
  intro h
  have h2 := h slowTask (by simp)
  norm_num [slowTask, cfgPlain] at h2

/- ------------------------------------------------------------------ -/
/- C5: package adapters never set a confidence.                       -/
/- ------------------------------------------------------------------ -/

theorem mbSearchPkg_conf_zero (t : String) (a : Option String)
    (recs : List MBRecording) (m : MusicMetadata)
    (hm : mbSearchPkg t a recs = some m) : m.confidence = 0 := by
  cases recs with
  | nil => exact Option.noConfusion hm
  | cons r rest =>
    simp only [mbSearchPkg] at hm
    cases hrel : mbFirstRelease r.releaseList with
    | none =>
      rw [hrel] at hm
      exact Option.noConfusion hm
    | some rel =>
      rw [hrel] at hm
      simp only [] at hm
      by_cases hid : rel.id = ""
      · rw [if_pos hid] at hm
        injection hm with h
        subst h
        rfl
      · rw [if_neg hid] at hm
        cases himg : r.images with
        | nil =>
          rw [himg] at hm
          injection hm with h
          subst h
          rfl
        | cons i is =>
          rw [himg] at hm
          injection hm with h
          subst h
          rfl

theorem neteaseSearch_conf_zero (t : String) (a : Option String)
    (songs : List NeSong) (m : MusicMetadata)
    (hm : neteaseSearch t a songs = some m) : m.confidence = 0 := by
  cases songs with
  | nil => exact Option.noConfusion hm
  | cons s rest =>
    simp only [neteaseSearch] at hm
    cases hp : s.picUrl with
    | none =>
      rw [hp] at hm
      simp only [] at hm
      injection hm with h
      subst h
      rfl
    | some p =>
      rw [hp] at hm
      simp only [] at hm
      injection hm with h
      subst h
      rfl

theorem qqSearch_conf_zero (t : String) (a : Option String)
    (songs : List QQSong) (m : MusicMetadata)
    (hm : qqSearch t a songs = some m) : m.confidence = 0 := by
  cases songs with
  | nil => exact Option.noConfusion hm
  | cons s rest =>
    simp only [qqSearch] at hm
    injection hm with h
    subst h
    rfl

/-- C5: the package adapters MusicBrainz, Netease and QQ never compute a
similarity: every candidate they return keeps the constructor default
`confidence = 0.0`; and under the default `min_confidence = 50`, whenever
such a candidate wins selection the pipeline discards it at the threshold
gate and returns absent. -/
theorem claim5_package_adapters_zero_confidence :
    (∀ t a recs m, mbSearchPkg t a recs = some m → m.confidence = 0) ∧
    (∀ t a songs m, neteaseSearch t a songs = some m → m.confidence = 0) ∧
    (∀ t a songs m, qqSearch t a songs = some m → m.confidence = 0) ∧
    (∀ cfg tasks cache now title artist best,
      cfg.minConfidence = 50 →
      (cacheGet cache cfg.expireDays now (createCacheKey title artist)).1 =
        none →
      selectBest cfg.sourceWeights (runFanout tasks cfg.searchTimeout) =
        some best →
      best.confidence = 0 →
      (searchTrackInfo cfg tasks cache now title artist).1 = none) := by
  refine ⟨mbSearchPkg_conf_zero, neteaseSearch_conf_zero, qqSearch_conf_zero,
    ?_⟩
  intro cfg tasks cache now title artist best hmin hmiss hsel hc0
  by_cases ht : title = ""
  · simp [searchTrackInfo, ht]
  · have hlow : best.confidence < cfg.minConfidence := by
      rw [hc0, hmin]
      norm_num
    rw [searchTrackInfo_miss_low cfg tasks cache now title artist best ht
      hmiss hsel hlow]

/-- A concrete MusicBrainz response: one recording matching the query
exactly, with no release list and no cover images. -/
def mbRec0 : MBRecording :=
  { title := "abc", artistName := "x", releaseList := none, images := [] }

/-- The candidate that `mbSearchPkg` produces from `mbRec0`. -/
def mbCand0 : MusicMetadata :=
  { title := "abc", artist := "x", album := "", confidence := 0,
    coverUrl := none, coverUrls := [], releaseId := some "",
    source := some "musicbrainz", sourceData := ["musicbrainz"],
    weightedScore := 0 }

/-- A concrete Netease response song without a cover URL. -/
def neSong0 : NeSong :=
  { name := "n", artistName := "x", albumName := "al", picUrl := none }

/-- The candidate that `neteaseSearch` produces from `neSong0`. -/
def neCand0 : MusicMetadata :=
  { title := "n", artist := "x", album := "al", confidence := 0,
    coverUrl := none, coverUrls := [], releaseId := none,
    source := some "netease", sourceData := ["netease"], weightedScore := 0 }

/-- A concrete QQ Music response song. -/
def qqSong0 : QQSong :=
  { title := "q", singerName := "x", albumTitle := "al", albumMid := "MID" }

/-- The candidate that `qqSearch` produces from `qqSong0`. -/
def qqCand0 : MusicMetadata :=
  { title := "q", artist := "x", album := "al", confidence := 0,
    coverUrl := some (normalizeUrl
      ("https://y.gtimg.cn/music/photo_new/T002R800x800M000" ++ "MID" ++
        ".jpg")),
    coverUrls := [("qqmusic", normalizeUrl
      ("https://y.gtimg.cn/music/photo_new/T002R800x800M000" ++ "MID" ++
        ".jpg"))],
    releaseId := none, source := some "qqmusic", sourceData := ["qqmusic"],
    weightedScore := 0 }

/-- A fast adapter task returning the MusicBrainz zero-confidence
candidate. -/
def taskMB0 : AdapterTask :=
  { delay := 1, outcome := TaskOutcome.ok (some mbCand0) }

theorem selMB0 : selectBest cfgPlain.sourceWeights
    (runFanout [taskMB0] cfgPlain.searchTimeout) =
    some (scoreMeta cfgPlain.sourceWeights mbCand0) := by
  have hrf : runFanout [taskMB0] cfgPlain.searchTimeout = [mbCand0] := by
    unfold runFanout
    rw [if_pos]
    · rfl
    · intro t htm
      simp only [List.mem_singleton] at htm
      subst htm
      norm_num [taskMB0, cfgPlain]
  rw [hrf]
  rfl

/-- Witness for C5: concrete responses through each adapter yield
confidence 0, and a pipeline whose winner is such a candidate returns
absent under the default threshold. -/
theorem claim5_witness :
    mbCand0.confidence = 0 ∧ neCand0.confidence = 0 ∧ qqCand0.confidence = 0 ∧
    (searchTrackInfo cfgPlain [taskMB0] [] 0 "abc" none).1 = none := by
  refine ⟨claim5_package_adapters_zero_confidence.1 "abc" none [mbRec0]
      mbCand0 rfl,
    claim5_package_adapters_zero_confidence.2.1 "n" none [neSong0] neCand0
      rfl,
    claim5_package_adapters_zero_confidence.2.2.1 "q" none [qqSong0] qqCand0
      rfl,
    claim5_package_adapters_zero_confidence.2.2.2 cfgPlain [taskMB0] [] 0
      "abc" none (scoreMeta cfgPlain.sourceWeights mbCand0) rfl rfl selMB0
      ?_⟩
  rw [scoreMeta_confidence]
  rfl

/- ------------------------------------------------------------------ -/
/- C7: adapter failures are isolated.                                 -/
/- ------------------------------------------------------------------ -/

/-- The tasks whose adapters do not raise. -/
def nonErrTasks (tasks : List AdapterTask) : List AdapterTask :=
  tasks.filter (fun t => t.outcome != TaskOutcome.err)

theorem filterMap_taskResult_nonErr (tasks : List AdapterTask) :
    (nonErrTasks tasks).filterMap taskResult = tasks.filterMap taskResult := by
  induction tasks with
  | nil => rfl
  | cons t ts ih =>
    cases htc : t.outcome with
    | ok m =>
      have h1 : nonErrTasks (t :: ts) = t :: nonErrTasks ts := by
        simp [nonErrTasks, List.filter_cons, htc]
      have h2 : taskResult t = m := by simp [taskResult, htc]
      rw [h1, List.filterMap_cons, List.filterMap_cons, h2, ih]
    | err =>
      have h1 : nonErrTasks (t :: ts) = nonErrTasks ts := by
        simp [nonErrTasks, List.filter_cons, htc]
      have h2 : taskResult t = none := by simp [taskResult, htc]
      rw [h1, List.filterMap_cons, h2, ih]

theorem runFanout_nonErr (tasks : List AdapterTask) (timeout : ℚ)
    (h : ∀ t ∈ tasks, t.delay ≤ timeout) :
    runFanout (nonErrTasks tasks) timeout = runFanout tasks timeout := by
  unfold runFanout
  rw [if_pos h, if_pos]
  · exact filterMap_taskResult_nonErr tasks
  · intro t htm
    exact h t (List.mem_of_mem_filter htm)

/-- C7: an adapter that raises contributes no candidate but never aborts the
call: as long as every task meets the deadline, removing the raising
adapters changes neither the returned candidate nor the resulting cache —
the candidates of the non-raising adapters are still collected, scored and
eligible to win. -/
theorem claim7_adapter_errors_isolated (cfg : TaggerConfig)
    (tasks : List AdapterTask) (cache : CacheState) (now : ℚ)
    (title : String) (artist : Option String)
    (h : ∀ t ∈ tasks, t.delay ≤ cfg.searchTimeout) :
    (searchTrackInfo cfg tasks cache now title artist).1 =
      (searchTrackInfo cfg (nonErrTasks tasks) cache now title artist).1 ∧
    (searchTrackInfo cfg tasks cache now title artist).2.1 =
      (searchTrackInfo cfg (nonErrTasks tasks) cache now title artist).2.1 := by
  have hrf := runFanout_nonErr tasks cfg.searchTimeout h
  by_cases ht : title = ""
  · simp [searchTrackInfo, ht]
  · cases hget : (cacheGet cache cfg.expireDays now
        (createCacheKey title artist)).1 with
    | some p =>
      rw [searchTrackInfo_hit cfg tasks cache now title artist p ht hget,
          searchTrackInfo_hit cfg (nonErrTasks tasks) cache now title artist
            p ht hget]
      exact ⟨rfl, rfl⟩
    | none =>
      cases hsel : selectBest cfg.sourceWeights
          (runFanout tasks cfg.searchTimeout) with
      | none =>
        have hsel2 : selectBest cfg.sourceWeights
            (runFanout (nonErrTasks tasks) cfg.searchTimeout) = none := by
          rw [hrf]
          exact hsel
        rw [searchTrackInfo_miss_empty cfg tasks cache now title artist ht
              hget hsel,
            searchTrackInfo_miss_empty cfg (nonErrTasks tasks) cache now
              title artist ht hget hsel2]
        exact ⟨rfl, rfl⟩
      | some best =>
        have hsel2 : selectBest cfg.sourceWeights
            (runFanout (nonErrTasks tasks) cfg.searchTimeout) = some best := by
          rw [hrf]
          exact hsel
        by_cases hlow : best.confidence < cfg.minConfidence
        · rw [searchTrackInfo_miss_low cfg tasks cache now title artist best
                ht hget hsel hlow,
              searchTrackInfo_miss_low cfg (nonErrTasks tasks) cache now
                title artist best ht hget hsel2 hlow]
          exact ⟨rfl, rfl⟩
        · rw [searchTrackInfo_miss_win cfg tasks cache now title artist best
                ht hget hsel hlow,
              searchTrackInfo_miss_win cfg (nonErrTasks tasks) cache now
                title artist best ht hget hsel2 hlow]
          exact ⟨rfl, rfl⟩

/-- An adapter task that raises on every call. -/
def errTask : AdapterTask := { delay := 2, outcome := TaskOutcome.err }

/-- Witness for C7: with one good adapter and one always-raising adapter,
result and cache equal those of the good adapter alone. -/
theorem claim7_witness :
    nonErrTasks [taskPlain, errTask] = [taskPlain] ∧
    (searchTrackInfo cfgPlain [taskPlain, errTask] [] 0 "t" none).1 =
      (searchTrackInfo cfgPlain (nonErrTasks [taskPlain, errTask]) [] 0 "t"
        none).1 ∧
    (searchTrackInfo cfgPlain [taskPlain, errTask] [] 0 "t" none).2.1 =
      (searchTrackInfo cfgPlain (nonErrTasks [taskPlain, errTask]) [] 0 "t"
        none).2.1 := by
  refine ⟨rfl, ?_⟩
  have h := claim7_adapter_errors_isolated cfgPlain [taskPlain, errTask] []
    0 "t" none ?_
  · exact h
  · intro t htm
    simp only [List.mem_cons, List.mem_singleton, List.not_mem_nil,
      or_false] at htm
    rcases htm with h1 | h1 <;> subst h1 <;>
      norm_num [taskPlain, errTask, cfgPlain]

/- ------------------------------------------------------------------ -/
/- C4: which adapters compute the mean-of-similarities confidence.    -/
/- ------------------------------------------------------------------ -/

/-- Counterexample to C4 as stated: the package `MusicBrainzSource.search`
(the adapter `music_tagger.py` actually imports) returns a candidate for the
query `("abc", absent)` whose confidence is the constructor default 0, not
the arithmetic mean of title and artist similarity, which here is
(100 + 100) / 2 = 100. -/
theorem claim4_counterexample :
    mbSearchPkg "abc" none [mbRec0] = some mbCand0 ∧
    (similarity "abc" mbCand0.title + artistSim none mbCand0.artist) / 2 =
      100 ∧
    mbCand0.confidence ≠
      (similarity "abc" mbCand0.title + artistSim none mbCand0.artist) / 2 := by
  have hmean : (similarity "abc" mbCand0.title +
      artistSim none mbCand0.artist) / 2 = 100 := by
    have h1 : mbCand0.title = "abc" := rfl
    rw [h1, similarity_self]
    norm_num [artistSim]
  refine ⟨rfl, hmean, ?_⟩
  rw [hmean]
  have h2 : mbCand0.confidence = 0 := rfl
  rw [h2]
  norm_num

/-- C4 (amended): the adapters that do compute a similarity —
`SpotifySource.search` in the package and the legacy module-level
`MusicBrainzSource.search` — set the confidence to the arithmetic mean of
the title similarity and the artist similarity, where a falsy artist query
contributes the fixed neutral value 100; the package-level
`MusicBrainzSource.search` (together with Netease and QQ, see C5) instead
leaves the confidence at its constructor default 0. -/
theorem claim4_amended_confidence_mean :
    (∀ title artist tracks m, spotifySearch title artist tracks = some m →
      m.confidence =
        (similarity title m.title + artistSim artist m.artist) / 2) ∧
    (∀ title artist recs m, mbSearchLegacy title artist recs = some m →
      m.confidence =
        (similarity title m.title + artistSim artist m.artist) / 2) ∧
    (∀ t a recs m, mbSearchPkg t a recs = some m → m.confidence = 0) ∧
    (∀ s, artistSim none s = 100) := by
  refine ⟨?_, ?_, mbSearchPkg_conf_zero, fun s => rfl⟩
  · intro title artist tracks m hm
    cases tracks with
    | nil => exact Option.noConfusion hm
    | cons track rest =>
      simp only [spotifySearch] at hm
      injection hm with h
      subst h
      rfl
  · intro title artist recs m hm
    cases recs with
    | nil => exact Option.noConfusion hm
    | cons r rest =>
      simp only [mbSearchLegacy] at hm
      cases hrel : mbFirstRelease r.releaseList with
      | none =>
        rw [hrel] at hm
        exact Option.noConfusion hm
      | some rel =>
        rw [hrel] at hm
        simp only [] at hm
        injection hm with h
        subst h
        rfl

/-- A concrete Spotify response track. -/
def spTrack0 : SpTrack :=
  { name := "ab", artistName := "cd", albumName := "al", images := [] }

/-- The candidate that `spotifySearch` produces from `spTrack0` for the
query `("ab", "cd")`. -/
def spCand0 : MusicMetadata :=
  { title := "ab", artist := "cd", album := "al",
    confidence := (similarity "ab" "ab" + artistSim (some "cd") "cd") / 2,
    coverUrl := none, coverUrls := [], releaseId := none,
    source := some "spotify", sourceData := ["spotify"], weightedScore := 0 }

/-- Witness for the amended C4 at concrete inputs. -/
theorem claim4_witness :
    spCand0.confidence =
      (similarity "ab" spCand0.title + artistSim (some "cd") spCand0.artist)
        / 2 ∧
    mbCand0.confidence = 0 ∧
    artistSim none "anything" = 100 := by
  refine ⟨claim4_amended_confidence_mean.1 "ab" (some "cd") [spTrack0]
      spCand0 rfl,
    claim4_amended_confidence_mean.2.2.1 "abc" none [mbRec0] mbCand0 rfl,
    claim4_amended_confidence_mean.2.2.2 "anything"⟩

/- ------------------------------------------------------------------ -/
/- C6: cache round-trip for a winning query.                          -/
/- ------------------------------------------------------------------ -/

theorem cacheGet_fresh_set (c : CacheState) (expireDays now now2 : ℚ)
    (k : String) (v : CachePayload)
    (hfresh : now2 - now ≤ expireDays * 24 * 3600) :
    cacheGet (cacheSet c now k v) expireDays now2 k =
      (some v, cacheSet c now k v) := by
  simp only [cacheGet, lookupCache_set]
  rw [if_neg (not_lt.mpr hfresh)]

/-- C6: when a query misses the cache and resolves to a winner `w`, the
winner is persisted, and a second call with the identical `(title, artist)`
pair within the expiry window — with any adapter set whatsoever — returns a
candidate reconstructed from the stored payload with only a cache read as
effect, leaving the cache unchanged; the reconstruction agrees with `w` on
the seven stored fields. -/
theorem claim6_cache_round_trip (cfg : TaggerConfig)
    (tasks tasks2 : List AdapterTask) (cache : CacheState) (now now2 : ℚ)
    (title : String) (artist : Option String) (w : MusicMetadata)
    (ht : ¬ title = "")
    (hmiss : (cacheGet cache cfg.expireDays now
      (createCacheKey title artist)).1 = none)
    (hw : (searchTrackInfo cfg tasks cache now title artist).1 = some w)
    (hfresh : now2 - now ≤ cfg.expireDays * 24 * 3600) :
    searchTrackInfo cfg tasks2
        ((searchTrackInfo cfg tasks cache now title artist).2.1) now2 title
        artist =
      (some (metadataOfPayload (payloadOfMetadata w)),
       (searchTrackInfo cfg tasks cache now title artist).2.1,
       [Eff.cacheGetE]) ∧
    (metadataOfPayload (payloadOfMetadata w)).title = w.title ∧
    (metadataOfPayload (payloadOfMetadata w)).artist = w.artist ∧
    (metadataOfPayload (payloadOfMetadata w)).album = w.album ∧
    (metadataOfPayload (payloadOfMetadata w)).confidence = w.confidence ∧
    (metadataOfPayload (payloadOfMetadata w)).source = w.source ∧
    (metadataOfPayload (payloadOfMetadata w)).releaseId = w.releaseId ∧
    (metadataOfPayload (payloadOfMetadata w)).coverUrl = w.coverUrl := by
  refine ⟨?_, rfl, rfl, rfl, rfl, rfl, rfl, rfl⟩
  cases hsel : selectBest cfg.sourceWeights
      (runFanout tasks cfg.searchTimeout) with
  | none =>
    rw [searchTrackInfo_miss_empty cfg tasks cache now title artist ht hmiss
      hsel] at hw
    exact Option.noConfusion hw
  | some best =>
    by_cases hlow : best.confidence < cfg.minConfidence
    · rw [searchTrackInfo_miss_low cfg tasks cache now title artist best ht
        hmiss hsel hlow] at hw
      exact Option.noConfusion hw
    · have heq := searchTrackInfo_miss_win cfg tasks cache now title artist
        best ht hmiss hsel hlow
      have hbw : best = w := by
        rw [heq] at hw
        exact Option.some.inj hw
      subst hbw
      have hcache : (searchTrackInfo cfg tasks cache now title artist).2.1 =
          cacheSet (cacheGet cache cfg.expireDays now
              (createCacheKey title artist)).2 now
            (createCacheKey title artist) (payloadOfMetadata best) := by
        rw [heq]
      rw [hcache]
      have hget2 := cacheGet_fresh_set
        (cacheGet cache cfg.expireDays now (createCacheKey title artist)).2
        cfg.expireDays now now2 (createCacheKey title artist)
        (payloadOfMetadata best) hfresh
      rw [searchTrackInfo_hit cfg tasks2 _ now2 title artist
        (payloadOfMetadata best) ht (by rw [hget2])]
      rw [hget2]

theorem selPlainTitle : selectBest cfgPlain.sourceWeights
    (runFanout [taskPlain] cfgPlain.searchTimeout) = some wonPlain := by
  have hrf : runFanout [taskPlain] cfgPlain.searchTimeout = [candPlain] := by
    unfold runFanout
    rw [if_pos]
    · rfl
    · intro t htm
      simp only [List.mem_singleton] at htm
      subst htm
      norm_num [taskPlain, cfgPlain]
  rw [hrf]
  rfl

theorem firstCallRt :
    (searchTrackInfo cfgPlain [taskPlain] [] 0 "rt" none).1 =
      some wonPlain := by
  rw [searchTrackInfo_miss_win cfgPlain [taskPlain] [] 0 "rt" none wonPlain
    (by decide) rfl selPlainTitle
    (by rw [wonPlain, scoreMeta_confidence]; norm_num [candPlain, cfgPlain])]

/-- Witness for C6: the concrete winning query `("rt", absent)` round-trips
through the cache ten seconds later, with no adapters configured for the
second call. -/
theorem claim6_witness :
    searchTrackInfo cfgPlain []
        ((searchTrackInfo cfgPlain [taskPlain] [] 0 "rt" none).2.1) 10 "rt"
        none =
      (some (metadataOfPayload (payloadOfMetadata wonPlain)),
       (searchTrackInfo cfgPlain [taskPlain] [] 0 "rt" none).2.1,
       [Eff.cacheGetE]) ∧
    (metadataOfPayload (payloadOfMetadata wonPlain)).confidence =
      wonPlain.confidence := by
  have h := claim6_cache_round_trip cfgPlain [taskPlain] [] [] 0 10 "rt"
    none wonPlain (by decide) rfl firstCallRt (by norm_num [cfgPlain])
  exact ⟨h.1, h.2.2.2.2.1⟩
